import Mathlib

/-
  Shallow embedding of the byteworks-dashboard billing core:
  quote/invoice lifecycle routes, invoice model methods, URL signing and
  the reminder/expiry sweep, translated from
  `backend/app/api/routes/quotes.py`, `backend/app/api/routes/invoices.py`,
  `backend/app/models/invoice.py`, `backend/app/schemas/quote.py`,
  `backend/app/schemas/invoice.py` and `backend/app/core/security.py`.

  Monetary values (Python `Decimal` / `float`) are modelled as exact
  rationals; dates as integer day numbers (days since the Unix epoch);
  datetimes as integer Unix timestamps.  Database rows live in plain lists;
  primary keys (UUIDs in the source) are modelled as naturals drawn from a
  fresh-id counter.
-/

namespace BW

/-- Quote status enum, from `models/quote.py` (`QuoteStatus`). -/
inductive QuoteStatus
  | DRAFT
  | SENT
  | ACCEPTED
  | REJECTED
  | EXPIRED
deriving DecidableEq, Repr

/-- Invoice payment status enum, from `models/invoice.py` (`InvoiceStatus`). -/
inductive InvoiceStatus
  | PENDING
  | PAID
  | OVERDUE
  | CANCELLED
deriving DecidableEq, Repr

/-- Contact pipeline status enum, from `models/contact.py` (`ContactStatus`). -/
inductive ContactStatus
  | NEW
  | drafting
  | quoted
  | CONTACTED
  | QUALIFIED
  | CONVERTED
  | LOST
deriving DecidableEq, Repr

/-- A line item as stored in the JSON item lists of quotes and invoices
(description, quantity, unit price); `quantity` is an `int` in the schema,
`unit_price` a monetary value. -/
structure Item where
  description : String
  quantity : Int
  unit_price : ℚ
deriving DecidableEq, Repr

/-- A CRM contact row (`models/contact.py`), restricted to the fields the
billing core reads or writes. -/
structure Contact where
  id : Nat
  status : ContactStatus
deriving DecidableEq, Repr

/-- A quote row (`models/quote.py`), restricted to the fields the billing
core reads or writes.  `valid_until` is a day number, `sent_at` a Unix
timestamp. -/
structure Quote where
  id : Nat
  quote_number : String
  contact_id : Option Nat
  lead_id : Option Nat
  items : List Item
  subtotal : ℚ
  discount : ℚ
  discount_type : String
  discount_value : ℚ
  tax_rate : ℚ
  tax : ℚ
  total : ℚ
  status : QuoteStatus
  valid_until : Int
  reminder_sent : Bool
  sent_at : Option Int
  notes : Option String
deriving DecidableEq, Repr

/-- An invoice row (`models/invoice.py`), restricted to the fields the
billing core reads or writes.  `due_date` is a day number, `paid_at` a Unix
timestamp. -/
structure Invoice where
  id : Nat
  invoice_number : String
  quote_id : Option Nat
  contact_id : Option Nat
  items : List Item
  subtotal : ℚ
  tax_rate : ℚ
  tax : ℚ
  total : ℚ
  status : InvoiceStatus
  due_date : Int
  paid_at : Option Int
  payment_method : Option String
  notes : Option String
deriving DecidableEq, Repr

/-- The database state visible to the billing core: the three row tables
plus a fresh-id counter standing in for UUID generation. -/
structure DB where
  quotes : List Quote
  invoices : List Invoice
  contacts : List Contact
  nextId : Nat
deriving DecidableEq, Repr

/-- Errors the operations surface to the caller: 404 for a missing row,
422 for a request rejected by pydantic schema validation, and the
storage layer's `IntegrityError` (an uncaught constraint violation at
flush, surfaced as a 500 server error, not a client error). -/
inductive ApiError
  | NotFound
  | ValidationError
  | IntegrityError
deriving DecidableEq, Repr

def findQuote (db : DB) (qid : Nat) : Option Quote :=
  db.quotes.find? (fun q => q.id == qid)

def findInvoice (db : DB) (iid : Nat) : Option Invoice :=
  db.invoices.find? (fun i => i.id == iid)

/-- Embedding of `Invoice.mark_as_paid` from `models/invoice.py`: set status PAID,
stamp `paid_at`, and record the payment method when one is supplied
(Python truthiness: `if payment_method:` skips both `None` and `""`). -/
def Invoice.mark_as_paid (inv : Invoice) (payment_method : Option String)
    (now : Int) : Invoice :=
  { inv with
    status := InvoiceStatus.PAID
    paid_at := some now
    payment_method :=
      match payment_method with
      | some s => if s = "" then inv.payment_method else some s
      | none => inv.payment_method }

/-- Zero-padding to width `w`, as produced by the four-digit zero-pad of
Python number formatting (digits beyond the width are kept). -/
def padNum (w : Nat) (n : Nat) : String :=
  let s := toString n
  String.mk (List.replicate (w - s.length) '0') ++ s

/-- Embedding of `generate_invoice_number` from `routes/invoices.py`: count the invoice
rows and format `INV-` followed by count+1 zero-padded to four digits. -/
def generate_invoice_number (invoices : List Invoice) : String :=
  "INV-" ++ padNum 4 (invoices.length + 1)

/-- Replace every invoice row whose id matches `inv.id` by `inv`
(the ORM flush of an in-place mutation). -/
def replaceInvoice (invoices : List Invoice) (inv : Invoice) : List Invoice :=
  invoices.map (fun i => if i.id = inv.id then inv else i)

/-- Replace every quote row whose id matches `q.id` by `q`. -/
def replaceQuote (quotes : List Quote) (q : Quote) : List Quote :=
  quotes.map (fun x => if x.id = q.id then q else x)

/-- Result payload of `mark_invoice_paid`: the paid invoice's id and the
auto-created successor's id and number. -/
structure MarkPaidResult where
  paid_id : Nat
  next_id : Nat
  next_invoice_number : String
deriving DecidableEq, Repr

/-- Embedding of `mark_invoice_paid` from `routes/invoices.py`: look the invoice up
(404 when absent; no status check), call `Invoice.mark_as_paid`, commit,
then unconditionally create the next billing period's invoice: same
contact/items/subtotal/tax_rate/tax/total, status PENDING, a freshly
generated `INV-XXXX` number, and `due_date = today + 33` (30-day term plus
3-day grace).  Notification side effects are out of scope. -/
def mark_invoice_paid (db : DB) (invoice_id : Nat)
    (payment_method : Option String) (now today : Int) :
    Except ApiError (DB × MarkPaidResult) :=
  match findInvoice db invoice_id with
  | none => Except.error ApiError.NotFound
  | some invoice =>
    let paid := invoice.mark_as_paid payment_method now
    let invoices1 := replaceInvoice db.invoices paid
    let next_invoice_number := generate_invoice_number invoices1
    let next_invoice : Invoice :=
      { id := db.nextId
        invoice_number := next_invoice_number
        quote_id := none
        contact_id := invoice.contact_id
        items := invoice.items
        subtotal := invoice.subtotal
        tax_rate := invoice.tax_rate
        tax := invoice.tax
        total := invoice.total
        status := InvoiceStatus.PENDING
        due_date := today + 33
        paid_at := none
        payment_method := none
        notes := invoice.notes }
    Except.ok
      ({ db with invoices := invoices1 ++ [next_invoice], nextId := db.nextId + 1 },
       { paid_id := invoice.id
         next_id := next_invoice.id
         next_invoice_number := next_invoice_number })

/-- The UTC calendar day of a Unix timestamp (Python `.date()`): floor
division by 86400 seconds. -/
def dayOfTs (t : Int) : Int := t.fdiv 86400

/-- Embedding of `send_quote` from `routes/quotes.py`: look the quote up (404 when
absent; no status guard), set status SENT, `sent_at = now`,
`valid_until = (now + 15 days).date()` and `reminder_sent = false`.
The signed PDF link and notification side effects are out of scope. -/
def send_quote (db : DB) (quote_id : Nat) (now : Int) :
    Except ApiError (DB × Quote) :=
  match findQuote db quote_id with
  | none => Except.error ApiError.NotFound
  | some q =>
    let q' :=
      { q with
        status := QuoteStatus.SENT
        sent_at := some now
        valid_until := dayOfTs (now + 15 * 86400)
        reminder_sent := false }
    Except.ok ({ db with quotes := replaceQuote db.quotes q' }, q')

/-- One step of `process_quote_reminders` (`routes/quotes.py`) on a single
quote: only SENT quotes are touched; a quote past `valid_until` becomes
EXPIRED (counted in the second component), a quote 7 or 8 days from expiry
that has not been reminded gets `reminder_sent = true` (counted in the
first component). -/
def sweepQuote (today : Int) (q : Quote) : Quote × Nat × Nat :=
  if q.status = QuoteStatus.SENT then
    let days := q.valid_until - today
    if days < 0 then ({ q with status := QuoteStatus.EXPIRED }, 0, 1)
    else if 7 ≤ days ∧ days ≤ 8 ∧ q.reminder_sent = false then
      ({ q with reminder_sent := true }, 1, 0)
    else (q, 0, 0)
  else (q, 0, 0)

/-- Embedding of `process_quote_reminders` from `routes/quotes.py`: sweep every quote
(DRAFT and other non-SENT quotes pass through unchanged) and return the
new table together with the `reminders_sent` and `expired` counters. -/
def process_quote_reminders (db : DB) (today : Int) : DB × Nat × Nat :=
  let swept := db.quotes.map (sweepQuote today)
  ({ db with quotes := swept.map Prod.fst },
   (swept.map (fun x => x.2.1)).sum,
   (swept.map (fun x => x.2.2)).sum)

/-- The message signed by the URL-signing scheme (`core/security.py`):
`f"{path}:{expires}"`. -/
def signedMessage (path : String) (expires : Int) : String :=
  path ++ ":" ++ toString expires

/-- Embedding of `create_signed_query_params` from `core/security.py`, returning the
`(expires, signature)` pair it encodes into the query string.  `hmacHex`
abstracts `hmac.new(settings.secret_key.encode(), msg, sha256).hexdigest()`
— the secret key is deployment configuration, so the keyed MAC is a
parameter of the model. -/
def create_signed_query_params (hmacHex : String → String) (now : Int)
    (path : String) (valid_for_minutes : Int) : Int × String :=
  let expires := now + valid_for_minutes * 60
  (expires, hmacHex (signedMessage path expires))

/-- Embedding of `verify_url_signature` from `core/security.py`: reject when
`now > expires`, otherwise recompute the signature over the same message
and compare. -/
def verify_url_signature (hmacHex : String → String) (now : Int)
    (path : String) (expires : Int) (signature : String) : Bool :=
  if now > expires then false
  else signature == hmacHex (signedMessage path expires)

/- ===================== helper lemmas ===================== -/

theorem find?_replaceInvoice {l : List Invoice} {iid : Nat} {inv : Invoice}
    (p : Invoice) (h : l.find? (fun i => i.id == iid) = some inv)
    (hp : p.id = inv.id) :
    (replaceInvoice l p).find? (fun i => i.id == iid) = some p := by
  have hinv : inv.id = iid := by simpa using List.find?_some h
  induction l with
  | nil => simp at h
  | cons a as ih =>
    rw [List.find?_cons] at h
    by_cases ha : a.id = iid
    · rw [show (a.id == iid) = true by simpa using ha] at h
      have haeq : a = inv := by injection h
      subst haeq
      simp only [replaceInvoice, List.map_cons]
      rw [List.find?_cons, if_pos hp.symm,
        show (p.id == iid) = true by simp [hp, hinv]]
    · rw [show (a.id == iid) = false by simpa using ha] at h
      simp only [replaceInvoice, List.map_cons] at ih ⊢
      rw [List.find?_cons, if_neg (fun hc => ha (hc.trans (hp.trans hinv))),
        show (a.id == iid) = false by simpa using ha]
      exact ih h

theorem find?_replaceQuote {l : List Quote} {qid : Nat} {q : Quote}
    (p : Quote) (h : l.find? (fun x => x.id == qid) = some q)
    (hp : p.id = q.id) :
    (replaceQuote l p).find? (fun x => x.id == qid) = some p := by
  have hq : q.id = qid := by simpa using List.find?_some h
  induction l with
  | nil => simp at h
  | cons a as ih =>
    rw [List.find?_cons] at h
    by_cases ha : a.id = qid
    · rw [show (a.id == qid) = true by simpa using ha] at h
      have haeq : a = q := by injection h
      subst haeq
      simp only [replaceQuote, List.map_cons]
      rw [List.find?_cons, if_pos hp.symm,
        show (p.id == qid) = true by simp [hp, hq]]
    · rw [show (a.id == qid) = false by simpa using ha] at h
      simp only [replaceQuote, List.map_cons] at ih ⊢
      rw [List.find?_cons, if_neg (fun hc => ha (hc.trans (hp.trans hq))),
        show (a.id == qid) = false by simpa using ha]
      exact ih h

/- ===================== C10 ===================== -/

/-- C10: `Invoice.mark_as_paid` mutates only `status`, `paid_at` and (when
a payment method is supplied) `payment_method`; `invoice_number`, `items`,
`subtotal`, `tax_rate`, `tax`, `total`, `due_date`, `contact_id` and
`notes` are left unchanged, as are `id` and `quote_id`. -/
theorem mark_as_paid_frame (inv : Invoice) (pm : Option String) (now : Int) :
    (inv.mark_as_paid pm now).invoice_number = inv.invoice_number ∧
    (inv.mark_as_paid pm now).items = inv.items ∧
    (inv.mark_as_paid pm now).subtotal = inv.subtotal ∧
    (inv.mark_as_paid pm now).tax_rate = inv.tax_rate ∧
    (inv.mark_as_paid pm now).tax = inv.tax ∧
    (inv.mark_as_paid pm now).total = inv.total ∧
    (inv.mark_as_paid pm now).due_date = inv.due_date ∧
    (inv.mark_as_paid pm now).contact_id = inv.contact_id ∧
    (inv.mark_as_paid pm now).notes = inv.notes ∧
    (inv.mark_as_paid pm now).id = inv.id ∧
    (inv.mark_as_paid pm now).quote_id = inv.quote_id ∧
    (inv.mark_as_paid pm now).status = InvoiceStatus.PAID ∧
    (inv.mark_as_paid pm now).paid_at = some now ∧
    (pm = none → (inv.mark_as_paid pm now).payment_method = inv.payment_method) ∧
    (∀ s, pm = some s → s ≠ "" →
      (inv.mark_as_paid pm now).payment_method = some s) := by
  refine ⟨rfl, rfl, rfl, rfl, rfl, rfl, rfl, rfl, rfl, rfl, rfl, rfl, rfl, ?_, ?_⟩
  · intro h
    subst h
    rfl
  · intro s h hs
    subst h
    simp [Invoice.mark_as_paid, hs]

/-- Sample invoice used by concrete witnesses. -/
def sampleInvoice : Invoice :=
  { id := 1
    invoice_number := "INV-0001"
    quote_id := none
    contact_id := some 1
    items := [{ description := "web development", quantity := 1, unit_price := 100 }]
    subtotal := 100
    tax_rate := 18
    tax := 18
    total := 118
    status := InvoiceStatus.PENDING
    due_date := 19750
    paid_at := none
    payment_method := none
    notes := none }

/-- Witness for C10 at a concrete invoice, timestamp and payment method. -/
theorem mark_as_paid_frame_witness :
    (sampleInvoice.mark_as_paid (some "wire") 1700000000).invoice_number
        = sampleInvoice.invoice_number ∧
    (sampleInvoice.mark_as_paid (some "wire") 1700000000).items
        = sampleInvoice.items ∧
    (sampleInvoice.mark_as_paid (some "wire") 1700000000).subtotal
        = sampleInvoice.subtotal ∧
    (sampleInvoice.mark_as_paid (some "wire") 1700000000).tax_rate
        = sampleInvoice.tax_rate ∧
    (sampleInvoice.mark_as_paid (some "wire") 1700000000).tax
        = sampleInvoice.tax ∧
    (sampleInvoice.mark_as_paid (some "wire") 1700000000).total
        = sampleInvoice.total ∧
    (sampleInvoice.mark_as_paid (some "wire") 1700000000).due_date
        = sampleInvoice.due_date ∧
    (sampleInvoice.mark_as_paid (some "wire") 1700000000).contact_id
        = sampleInvoice.contact_id ∧
    (sampleInvoice.mark_as_paid (some "wire") 1700000000).notes
        = sampleInvoice.notes ∧
    (sampleInvoice.mark_as_paid (some "wire") 1700000000).id
        = sampleInvoice.id ∧
    (sampleInvoice.mark_as_paid (some "wire") 1700000000).quote_id
        = sampleInvoice.quote_id ∧
    (sampleInvoice.mark_as_paid (some "wire") 1700000000).status
        = InvoiceStatus.PAID ∧
    (sampleInvoice.mark_as_paid (some "wire") 1700000000).paid_at
        = some 1700000000 ∧
    ((some "wire" : Option String) = none →
      (sampleInvoice.mark_as_paid (some "wire") 1700000000).payment_method
        = sampleInvoice.payment_method) ∧
    (∀ s, (some "wire" : Option String) = some s → s ≠ "" →
      (sampleInvoice.mark_as_paid (some "wire") 1700000000).payment_method
        = some s) :=
  mark_as_paid_frame sampleInvoice (some "wire") 1700000000

/- ===================== C3 ===================== -/

/-- C3: round trip of the URL-signing scheme.  For any keyed MAC, path and
positive validity duration, the pair produced by
`create_signed_query_params` verifies as long as the clock has not passed
`expires`, fails (returning `false`, never raising) once it has, and fails
whenever the signature is altered.  Altering `path` or `expires` also
fails provided the altered message does not collide with the original one
under the MAC — the standard collision-freeness idealization of
HMAC-SHA256, which is the only property of the hash the code relies on. -/
theorem signed_link_roundtrip (hmacHex : String → String) (path : String)
    (m now : Int) (hm : 0 < m) :
    ∃ e s, create_signed_query_params hmacHex now path m = (e, s) ∧
      now ≤ e ∧
      (∀ t, t ≤ e → verify_url_signature hmacHex t path e s = true) ∧
      (∀ t, e < t → verify_url_signature hmacHex t path e s = false) ∧
      (∀ s', s' ≠ s → ∀ t, verify_url_signature hmacHex t path e s' = false) ∧
      (∀ p', p' ≠ path →
        hmacHex (signedMessage p' e) ≠ hmacHex (signedMessage path e) →
        ∀ t, verify_url_signature hmacHex t p' e s = false) ∧
      (∀ e', e' ≠ e →
        hmacHex (signedMessage path e') ≠ hmacHex (signedMessage path e) →
        ∀ t, verify_url_signature hmacHex t path e' s = false) := by
  refine ⟨now + m * 60, hmacHex (signedMessage path (now + m * 60)), rfl,
    by nlinarith, ?_, ?_, ?_, ?_, ?_⟩
  · intro t ht
    rw [verify_url_signature, if_neg (not_lt.mpr ht)]
    simp
  · intro t ht
    rw [verify_url_signature, if_pos ht]
  · intro s' hs' t
    rw [verify_url_signature]
    by_cases ht : now + m * 60 < t
    · rw [if_pos ht]
    · rw [if_neg ht]
      exact beq_eq_false_iff_ne.mpr hs'
  · intro p' _ hcoll t
    rw [verify_url_signature]
    by_cases ht : now + m * 60 < t
    · rw [if_pos ht]
    · rw [if_neg ht]
      exact beq_eq_false_iff_ne.mpr (Ne.symm hcoll)
  · intro e' _ hcoll t
    rw [verify_url_signature]
    by_cases ht : e' < t
    · rw [if_pos ht]
    · rw [if_neg ht]
      exact beq_eq_false_iff_ne.mpr (Ne.symm hcoll)

/-- Witness for C3: a concrete MAC (the identity function, which is
collision-free), a concrete path, a 30-day validity and a concrete clock. -/
theorem signed_link_roundtrip_witness :
    ∃ e s, create_signed_query_params (fun x => x) 1700000000
        "/api/public/quote/7/pdf" 43200 = (e, s) ∧
      1700000000 ≤ e ∧
      (∀ t, t ≤ e →
        verify_url_signature (fun x => x) t "/api/public/quote/7/pdf" e s = true) ∧
      (∀ t, e < t →
        verify_url_signature (fun x => x) t "/api/public/quote/7/pdf" e s = false) ∧
      (∀ s', s' ≠ s → ∀ t,
        verify_url_signature (fun x => x) t "/api/public/quote/7/pdf" e s' = false) ∧
      (∀ p', p' ≠ "/api/public/quote/7/pdf" →
        (fun x => x) (signedMessage p' e)
          ≠ (fun x => x) (signedMessage "/api/public/quote/7/pdf" e) →
        ∀ t, verify_url_signature (fun x => x) t p' e s = false) ∧
      (∀ e', e' ≠ e →
        (fun x => x) (signedMessage "/api/public/quote/7/pdf" e')
          ≠ (fun x => x) (signedMessage "/api/public/quote/7/pdf" e) →
        ∀ t,
          verify_url_signature (fun x => x) t "/api/public/quote/7/pdf" e' s
            = false) :=
  signed_link_roundtrip (fun x => x) "/api/public/quote/7/pdf" 43200 1700000000
    (by norm_num)

/- ===================== C9 ===================== -/

/-- Branch equation: a SENT quote past its validity is expired. -/
theorem sweepQuote_eq_of_expired (today : Int) (q : Quote)
    (hs : q.status = QuoteStatus.SENT) (h1 : q.valid_until - today < 0) :
    sweepQuote today q = ({ q with status := QuoteStatus.EXPIRED }, 0, 1) := by
  simp only [sweepQuote]
  rw [if_pos hs, if_pos h1]

/-- Branch equation: a SENT quote 7 or 8 days from expiry and not yet
reminded gets its reminder flag set. -/
theorem sweepQuote_eq_of_remind (today : Int) (q : Quote)
    (hs : q.status = QuoteStatus.SENT) (h1 : ¬ q.valid_until - today < 0)
    (h2 : 7 ≤ q.valid_until - today ∧ q.valid_until - today ≤ 8 ∧
      q.reminder_sent = false) :
    sweepQuote today q = ({ q with reminder_sent := true }, 1, 0) := by
  simp only [sweepQuote]
  rw [if_pos hs, if_neg h1, if_pos h2]

/-- Branch equation: any other SENT quote passes through unchanged. -/
theorem sweepQuote_eq_of_skip (today : Int) (q : Quote)
    (hs : q.status = QuoteStatus.SENT) (h1 : ¬ q.valid_until - today < 0)
    (h2 : ¬ (7 ≤ q.valid_until - today ∧ q.valid_until - today ≤ 8 ∧
      q.reminder_sent = false)) :
    sweepQuote today q = (q, 0, 0) := by
  simp only [sweepQuote]
  rw [if_pos hs, if_neg h1, if_neg h2]

/-- Branch equation: a non-SENT quote passes through unchanged. -/
theorem sweepQuote_eq_of_not_sent (today : Int) (q : Quote)
    (hs : ¬ q.status = QuoteStatus.SENT) :
    sweepQuote today q = (q, 0, 0) := by
  simp only [sweepQuote]
  rw [if_neg hs]

/-- Sweeping a quote twice on the same day changes nothing the second time
and contributes nothing to either counter. -/
theorem sweepQuote_idem (today : Int) (q : Quote) :
    sweepQuote today (sweepQuote today q).1 = ((sweepQuote today q).1, 0, 0) := by
  by_cases hs : q.status = QuoteStatus.SENT
  · by_cases h1 : q.valid_until - today < 0
    · rw [sweepQuote_eq_of_expired today q hs h1]
      exact sweepQuote_eq_of_not_sent today _ (by simp)
    · by_cases h2 : 7 ≤ q.valid_until - today ∧ q.valid_until - today ≤ 8 ∧
          q.reminder_sent = false
      · rw [sweepQuote_eq_of_remind today q hs h1 h2]
        exact sweepQuote_eq_of_skip today _ hs h1 (by simp)
      · rw [sweepQuote_eq_of_skip today q hs h1 h2]
        exact sweepQuote_eq_of_skip today q hs h1 h2
  · rw [sweepQuote_eq_of_not_sent today q hs]
    exact sweepQuote_eq_of_not_sent today q hs

/-- C9: the sweep is idempotent.  The first `process_quote_reminders` run
expires every SENT quote whose `valid_until` is before today and flips
`reminder_sent` on every not-yet-reminded SENT quote 7 or 8 days from
expiry; running the sweep again on the resulting state reports
`reminders_sent = 0` and `expired = 0`. -/
theorem sweep_idempotent (db : DB) (today : Int) :
    (∀ q ∈ db.quotes, q.status = QuoteStatus.SENT → q.valid_until < today →
      (sweepQuote today q).1 = { q with status := QuoteStatus.EXPIRED } ∧
      { q with status := QuoteStatus.EXPIRED }
        ∈ (process_quote_reminders db today).1.quotes) ∧
    (∀ q ∈ db.quotes, q.status = QuoteStatus.SENT →
      7 ≤ q.valid_until - today → q.valid_until - today ≤ 8 →
      q.reminder_sent = false →
      (sweepQuote today q).1 = { q with reminder_sent := true } ∧
      { q with reminder_sent := true }
        ∈ (process_quote_reminders db today).1.quotes) ∧
    (process_quote_reminders (process_quote_reminders db today).1 today).2
      = (0, 0) := by
  refine ⟨?_, ?_, ?_⟩
  · intro q hq hs hlt
    have hstep : (sweepQuote today q).1 = { q with status := QuoteStatus.EXPIRED } := by
      rw [sweepQuote_eq_of_expired today q hs (by omega)]
    refine ⟨hstep, ?_⟩
    rw [← hstep]
    simp only [process_quote_reminders, List.map_map]
    exact List.mem_map_of_mem _ hq
  · intro q hq hs h7 h8 hr
    have hstep : (sweepQuote today q).1 = { q with reminder_sent := true } := by
      rw [sweepQuote_eq_of_remind today q hs (by omega) ⟨h7, h8, hr⟩]
    refine ⟨hstep, ?_⟩
    rw [← hstep]
    simp only [process_quote_reminders, List.map_map]
    exact List.mem_map_of_mem _ hq
  · simp only [process_quote_reminders, List.map_map]
    have hz : ∀ f : Quote × Nat × Nat → Nat, (∀ x, f x = x.2.1 ∨ f x = x.2.2) →
        ((db.quotes.map
          (fun q => sweepQuote today ((sweepQuote today q).1))).map f).sum = 0 := by
      intro f hf
      rw [List.map_map]
      apply List.sum_eq_zero
      intro x hx
      obtain ⟨q, _, rfl⟩ := List.mem_map.mp hx
      simp only [Function.comp_apply, sweepQuote_idem]
      rcases hf ((sweepQuote today q).1, 0, 0) with h | h <;> rw [h]
    rw [Prod.mk.injEq]
    constructor
    · simpa [List.map_map, Function.comp] using
        hz (fun x => x.2.1) (fun x => Or.inl rfl)
    · simpa [List.map_map, Function.comp] using
        hz (fun x => x.2.2) (fun x => Or.inr rfl)

/-- Sample quote used by concrete witnesses: SENT, expiring 8 days after
day 20000, reminder not yet sent. -/
def sampleSentQuote : Quote :=
  { id := 10
    quote_number := "QT-20240101-120000"
    contact_id := some 1
    lead_id := some 1
    items := [{ description := "web development", quantity := 1, unit_price := 100 }]
    subtotal := 100
    discount := 0
    discount_type := "percentage"
    discount_value := 0
    tax_rate := 0
    tax := 18
    total := 118
    status := QuoteStatus.SENT
    valid_until := 20008
    reminder_sent := false
    sent_at := some 1700000000
    notes := none }

/-- Sample database used by concrete witnesses: one contact, one SENT
quote, one pending invoice. -/
def sampleDB : DB :=
  { quotes := [sampleSentQuote]
    invoices := [sampleInvoice]
    contacts := [{ id := 1, status := ContactStatus.quoted }]
    nextId := 11 }

/-- Witness for C9: on a concrete database holding an expirable SENT quote,
the second sweep run reports zero reminders and zero expirations. -/
theorem sweep_idempotent_witness :
    (process_quote_reminders
        (process_quote_reminders sampleDB 20010).1 20010).2 = (0, 0) :=
  (sweep_idempotent sampleDB 20010).2.2

/- ===================== C1 ===================== -/

/-- An EXPIRED quote, used to exhibit the missing DRAFT-only guard of
`send_quote`. -/
def expiredQuote : Quote :=
  { sampleSentQuote with
    id := 21
    quote_number := "QT-20240101-090000"
    status := QuoteStatus.EXPIRED
    valid_until := 19900 }

/-- Database holding only the EXPIRED quote. -/
def dbExpired : DB :=
  { quotes := [expiredQuote]
    invoices := []
    contacts := [{ id := 1, status := ContactStatus.quoted }]
    nextId := 30 }

/-- Counterexample to C5: `send_quote` has no status guard, so sending an
EXPIRED quote succeeds (no client error) and re-marks it SENT, refuting
that DRAFT→SENT is the only transition `send` performs. -/
theorem send_quote_draft_only_counterexample :
    expiredQuote.status = QuoteStatus.EXPIRED ∧
    ∃ db' q', send_quote dbExpired 21 (86400 * 20000) = Except.ok (db', q') ∧
      q'.status = QuoteStatus.SENT ∧
      q'.sent_at = some (86400 * 20000) ∧
      q'.valid_until = 20015 ∧
      q'.reminder_sent = false := by
  refine ⟨rfl, _, _, rfl, rfl, rfl, ?_, rfl⟩
  decide

/-- C5 as amended: `send_quote` succeeds on any existing quote regardless
of its current status, and on success sets status SENT, `sent_at = now`,
`valid_until` to the date exactly 15 days after `now`, and
`reminder_sent = false`. -/
theorem send_quote_effects (db : DB) (qid : Nat) (now : Int) (q : Quote)
    (hq : findQuote db qid = some q) :
    ∃ db' q', send_quote db qid now = Except.ok (db', q') ∧
      q'.status = QuoteStatus.SENT ∧
      q'.sent_at = some now ∧
      q'.valid_until = dayOfTs now + 15 ∧
      q'.reminder_sent = false ∧
      q'.id = q.id ∧
      q'.total = q.total ∧
      findQuote db' qid = some q' := by
  simp only [send_quote, hq]
  refine ⟨_, _, rfl, rfl, rfl, ?_, rfl, rfl, rfl, ?_⟩
  · show dayOfTs (now + 15 * 86400) = dayOfTs now + 15
    rw [dayOfTs, dayOfTs, Int.fdiv_eq_ediv _ (by norm_num),
      Int.fdiv_eq_ediv _ (by norm_num), Int.add_mul_ediv_right now 15 (by norm_num)]
  · exact find?_replaceQuote _ hq rfl

/-- Witness for C5's amended theorem at a concrete database and quote. -/
theorem send_quote_effects_witness :
    ∃ db' q', send_quote dbExpired 21 1700000000 = Except.ok (db', q') ∧
      q'.status = QuoteStatus.SENT ∧
      q'.sent_at = some 1700000000 ∧
      q'.valid_until = dayOfTs 1700000000 + 15 ∧
      q'.reminder_sent = false ∧
      q'.id = expiredQuote.id ∧
      q'.total = expiredQuote.total ∧
      findQuote db' 21 = some q' :=
  send_quote_effects dbExpired 21 1700000000 expiredQuote rfl

/- ===================== C6 ===================== -/

/-- An invoice that is already PAID, used to exhibit the missing
transition guard of `mark_invoice_paid`.  It carries number `INV-0001`,
so the successor number the guard-free call generates (`INV-0002` in a
one-invoice table) does not collide with the uniqueness constraint on
`invoice_number`. -/
def paidInvoice : Invoice :=
  { sampleInvoice with
    id := 2
    invoice_number := "INV-0001"
    status := InvoiceStatus.PAID
    paid_at := some 1690000000
    payment_method := some "wire" }

/-- Database holding only the already-PAID invoice. -/
def dbPaid : DB :=
  { quotes := []
    invoices := [paidInvoice]
    contacts := [{ id := 1, status := ContactStatus.CONVERTED }]
    nextId := 3 }

/-- Counterexample to C6: calling `mark_invoice_paid` on an already-PAID
invoice is not rejected — it succeeds, silently overwrites `paid_at` and
`payment_method`, and creates yet another successor invoice (numbered
`INV-0002`, fresh with respect to the single existing `INV-0001` row, so
the uniqueness constraint on `invoice_number` is not in play). -/
theorem mark_paid_guard_counterexample :
    paidInvoice.status = InvoiceStatus.PAID ∧
    paidInvoice.invoice_number = "INV-0001" ∧
    ∃ db' res, mark_invoice_paid dbPaid 2 (some "card") 1700000000 20000
        = Except.ok (db', res) ∧
      res.next_invoice_number = "INV-0002" ∧
      findInvoice db' 2 = some { paidInvoice with
        paid_at := some 1700000000, payment_method := some "card" } ∧
      db'.invoices.length = dbPaid.invoices.length + 1 := by
  refine ⟨rfl, rfl, _, _, rfl, ?_, ?_, ?_⟩ <;> decide

/-- C6 as amended: `mark_invoice_paid` performs no state check.  Even from
a terminal status (PAID or CANCELLED) the call succeeds with no client
error, re-stamps `paid_at = now`, and unconditionally appends a successor
invoice.  The `hfresh` hypothesis restricts the statement to states where
the generated successor number is not already taken: on a collision the
storage layer's uniqueness constraint on `invoice_number` would instead
make the successor flush raise `IntegrityError` (the re-stamp having
already been committed). -/
theorem mark_paid_no_state_guard (db : DB) (iid : Nat) (pm : Option String)
    (now today : Int) (inv : Invoice)
    (hi : findInvoice db iid = some inv)
    (hterm : inv.status = InvoiceStatus.PAID ∨
      inv.status = InvoiceStatus.CANCELLED)
    (hfresh : ∀ i ∈ db.invoices,
      i.invoice_number ≠ "INV-" ++ padNum 4 (db.invoices.length + 1)) :
    ∃ db' res, mark_invoice_paid db iid pm now today = Except.ok (db', res) ∧
      findInvoice db' iid = some (inv.mark_as_paid pm now) ∧
      (inv.mark_as_paid pm now).status = InvoiceStatus.PAID ∧
      (inv.mark_as_paid pm now).paid_at = some now ∧
      db'.invoices.length = db.invoices.length + 1 := by
  simp only [mark_invoice_paid, hi]
  refine ⟨_, _, rfl, ?_, rfl, rfl, ?_⟩
  · show (replaceInvoice db.invoices (inv.mark_as_paid pm now)
        ++ [_]).find? (fun i => i.id == iid) = some (inv.mark_as_paid pm now)
    rw [List.find?_append, find?_replaceInvoice (inv.mark_as_paid pm now) hi rfl]
    rfl
  · show (replaceInvoice db.invoices (inv.mark_as_paid pm now) ++ [_]).length
        = db.invoices.length + 1
    rw [List.length_append, replaceInvoice, List.length_map, List.length_singleton]

/-- Witness for C6's amended theorem at the concrete already-PAID
invoice; the single existing number `INV-0001` differs from the generated
successor number `INV-0002`, discharging the freshness hypothesis. -/
theorem mark_paid_no_state_guard_witness :
    ∃ db' res, mark_invoice_paid dbPaid 2 (some "card") 1700000000 20000
        = Except.ok (db', res) ∧
      findInvoice db' 2
        = some (paidInvoice.mark_as_paid (some "card") 1700000000) ∧
      (paidInvoice.mark_as_paid (some "card") 1700000000).status
        = InvoiceStatus.PAID ∧
      (paidInvoice.mark_as_paid (some "card") 1700000000).paid_at
        = some 1700000000 ∧
      db'.invoices.length = dbPaid.invoices.length + 1 :=
  mark_paid_no_state_guard dbPaid 2 (some "card") 1700000000 20000
    paidInvoice rfl (Or.inl rfl) (by decide)

/- ===================== C4 ===================== -/

end BW
